import Mathlib

/-!
Verification development for the llm-council deliberation orchestrator.

Each section shallow-embeds the Python functions of one backend module
(src/backend/council.py, arena.py, openrouter.py, council_stream.py,
storage.py, deliberation/deliberation.py) as executable Lean definitions,
and proves or refutes the specification claims about them.

Conventions used throughout:
* Python `str` is `String`; character-level scans work on `List Char`.
* Python `float` is `Rat` (exact arithmetic stands in for IEEE floats;
  no claim here depends on rounding of binary floats).
* Python `None`-able values are `Option`; a Python function that returns
  `None` on failure becomes a Lean function returning `Option _`.
* Python dicts with a fixed key set become structures; a key that is only
  conditionally written is an `Option` field (`none` = key absent).
* `await`ed calls to the LLM gateway are modelled by explicit oracles:
  a list or function giving the outcome of each successive upstream call.
-/

namespace LLMCouncil

/-! ## String scanning utilities

`charsPrefixOf pat s` is true when `pat` is a prefix of `s`;
`charsContains hay pat` is Python `pat in hay` (substring containment).
-/

def charsPrefixOf : List Char → List Char → Bool
  | [], _ => true
  | _ :: _, [] => false
  | c :: cs, d :: ds => c == d && charsPrefixOf cs ds

def charsContains (hay pat : List Char) : Bool :=
  match hay with
  | [] => pat.isEmpty
  | _ :: rest => charsPrefixOf pat hay || charsContains rest pat

/-- Python `pat in hay` on strings. -/
def strContains (hay pat : String) : Bool :=
  charsContains hay.toList pat.toList

/-! ## C2: anonymous label assignment (council.py line 133, arena.py line 140)

Both sites build labels with `[chr(65 + i) for i in range(K)]`.
-/

/-- From `src/backend/council.py`, `stage2_collect_rankings` (line 133):
`labels = [chr(65 + i) for i in range(len(stage1_results))]`. -/
def stage2Labels (k : Nat) : List String :=
  (List.range k).map (fun i => String.mk [Char.ofNat (65 + i)])

/-- From `src/backend/council.py`, lines 136-139: the label→model dict
comprehension — key `Response <label>`, value the model of the zipped
stage-1 result (keyed association list, keys in construction order). -/
def labelToModel (stage1Models : List String) : List (String × String) :=
  ((stage2Labels stage1Models.length).zip stage1Models).map
    (fun lm => ("Response " ++ lm.1, lm.2))

/-- From `src/backend/arena.py`, `create_participant_mapping` (lines 129-141):
`labels = [chr(65 + i) for i in range(len(models))]`, then the dict
comprehension mapping `Participant <label>` to the zipped model. -/
def create_participant_mapping (models : List String) : List (String × String) :=
  (((List.range models.length).map (fun i => String.mk [Char.ofNat (65 + i)])).zip
      models).map
    (fun lm => ("Participant " ++ lm.1, lm.2))

/-- A label matches `[A-Z]+`: non-empty, uppercase ASCII letters only. -/
def isUpperAlphaStr (s : String) : Bool :=
  !s.toList.isEmpty && s.toList.all (fun c => 65 ≤ c.toNat && c.toNat ≤ 90)

/-! ## C1 / C4: council stage 3 (council.py, `stage3_synthesize_final`) -/

/-- A stage-1 result dict as consumed by `stage3_synthesize_final`
(council.py lines 246-249 read the keys `model` and `response`). -/
structure Stage1Result where
  model : String
  response : String
deriving Repr, DecidableEq

/-- A stage-2 result dict as consumed by `stage3_synthesize_final`
(council.py lines 251-254 read the keys `model` and `ranking`). -/
structure Stage2Result where
  model : String
  ranking : String
deriving Repr, DecidableEq

/-- Python `sep.join(parts)`. -/
def joinSep (sep : String) : List String → String
  | [] => ""
  | [s] => s
  | s :: rest => s ++ sep ++ joinSep sep rest

/-- council.py lines 246-249: stage1_text joins, with blank-line
separators, one block per stage-1 result of the form
`Model: <model>` newline `Response: <response>`. -/
def stage1Text (stage1_results : List Stage1Result) : String :=
  joinSep "\n\n" (stage1_results.map
    (fun r => "Model: " ++ r.model ++ "\nResponse: " ++ r.response))

/-- council.py lines 251-254: stage2_text joins, with blank-line
separators, one block per stage-2 result of the form
`Model: <model>` newline `Ranking: <ranking>`. -/
def stage2Text (stage2_results : List Stage2Result) : String :=
  joinSep "\n\n" (stage2_results.map
    (fun r => "Model: " ++ r.model ++ "\nRanking: " ++ r.ranking))

/-- The fixed tail of the chairman prompt template (council.py lines 266-284),
verbatim; apostrophes are written as the escape `\x27`. -/
def chairmanMandateText : String :=
  "YOUR MANDATE AS CHAIRMAN:\n" ++
  "You are not here to please the user or validate their assumptions. You are here to provide the most accurate, honest answer possible.\n\n" ++
  "CRITICAL EVALUATION:\n" ++
  "1. Identify where the council AGREES - but agreement doesn\x27t mean correctness. Consensus around a wrong answer is still wrong.\n" ++
  "2. Identify where the council DISAGREES - genuine disagreement often reveals important nuance or uncertainty.\n" ++
  "3. Look for ERRORS - factual mistakes, logical fallacies, unsupported claims, or wishful thinking.\n" ++
  "4. Consider what\x27s MISSING - what did the models fail to address or conveniently ignore?\n\n" ++
  "YOUR RESPONSE MUST:\n" ++
  "- Correct any errors in the council\x27s responses, even if highly-ranked models made them\n" ++
  "- Push back on flawed reasoning, bad ideas, or incorrect assumptions - including from the user\x27s original question\n" ++
  "- Acknowledge genuine uncertainty rather than pretending to know things you don\x27t\n" ++
  "- Be direct and honest, not diplomatic and evasive\n" ++
  "- Prioritize accuracy over being agreeable\n\n" ++
  "If the user\x27s premise is flawed, say so. If a popular answer is wrong, explain why. If there\x27s no good answer, admit it.\n\n" ++
  "Now provide your synthesis - the truth as best you can determine it:"

/-- council.py lines 256-284: the chairman prompt f-string of
`stage3_synthesize_final`, interpolating `user_query`, `stage1_text`
and `stage2_text`. -/
def chairman_prompt (user_query : String) (stage1_results : List Stage1Result)
    (stage2_results : List Stage2Result) : String :=
  "You are the Chairman of an LLM Council tasked with delivering the TRUTH, not consensus.\n\n" ++
  "Original Question: " ++ user_query ++ "\n\n" ++
  "STAGE 1 - Individual Responses:\n" ++ stage1Text stage1_results ++ "\n\n" ++
  "STAGE 2 - Peer Rankings:\n" ++ stage2Text stage2_results ++ "\n\n" ++
  chairmanMandateText

/-- The gateway result dict shape read by the council pipeline: `content`
and `metrics` (`reasoning_details` is irrelevant to the claims below).
Metrics are kept opaque as key/value pairs. -/
structure QueryResponse where
  content : String
  metrics : List (String × Rat)
deriving Repr, DecidableEq

/-- The stage-3 result dict (council.py lines 296-306): keys `model`,
`response`, `metrics`. -/
structure Stage3Result where
  model : String
  response : String
  metrics : List (String × Rat)
deriving Repr, DecidableEq

/-- council.py lines 286-311: the call/fallback logic of
`stage3_synthesize_final`. `query_model_oracle n` is the result the gateway
would return for the n-th chairman call made at this layer; the source makes
exactly ONE call (line 289: `response = await query_model(effective_chairman,
messages)`) and on `None` falls back to the error synthesis (lines 291-300).
Returns the stage-3 result dict together with the number of chairman calls
issued by this function. -/
def stage3_synthesize_final (effective_chairman : String)
    (query_model_oracle : Nat → Option QueryResponse) : Stage3Result × Nat :=
  match query_model_oracle 0 with
  | none =>
      ({ model := effective_chairman,
         response := "Error: Unable to generate final synthesis.",
         metrics := [] }, 1)
  | some r =>
      ({ model := effective_chairman, response := r.content,
         metrics := r.metrics }, 1)

/-! ## C3 / C6: gateway retry loop (openrouter.py) -/

/-- Outcome of one upstream HTTP attempt inside `query_model` or
`query_model_streaming`: a successful body, an `httpx.HTTPStatusError`
carrying a status code, an `httpx.TimeoutException`, or any other
exception. -/
inductive UpstreamOutcome where
  | ok (response : QueryResponse)
  | httpError (status : Nat)
  | timeout
  | otherError
deriving Repr, DecidableEq

/-- openrouter.py line 23: `RETRYABLE_STATUS_CODES = {408, 429, 502, 503}`. -/
def RETRYABLE_STATUS_CODES : List Nat := [408, 429, 502, 503]

/-- openrouter.py line 24: `MAX_RETRIES = 3`. -/
def MAX_RETRIES : Nat := 3

/-- openrouter.py line 25: `RETRY_BASE_DELAY = 1.0  # seconds, doubles each retry`. -/
def RETRY_BASE_DELAY : Rat := 1

/-- The observable trace of one `query_model` call: the returned value, the
number of upstream requests issued, and the back-off sleeps performed. -/
structure CallTrace where
  result : Option QueryResponse
  attempts : Nat
  delays : List Rat
deriving Repr, DecidableEq

/-- openrouter.py lines 106-201, the body of
`for attempt in range(MAX_RETRIES)` in `query_model` (non-streaming).
`fuel` counts the loop iterations left (initially `MAX_RETRIES`), `attempt`
the current Python loop index, so `fuel = MAX_RETRIES - attempt`.
* success returns the result (line 148);
* `HTTPStatusError` with `status in RETRYABLE_STATUS_CODES and attempt <
  MAX_RETRIES - 1` sleeps `RETRY_BASE_DELAY * (2 ** attempt)` and continues
  (lines 154-161), otherwise returns `None` (line 183);
* `TimeoutException` returns `None` immediately (lines 185-191) — the
  non-streaming timeout is NOT retried;
* any other exception returns `None` (lines 193-199). -/
def query_model_loop (oracle : Nat → UpstreamOutcome) :
    Nat → Nat → CallTrace
  | 0, attempt => { result := none, attempts := attempt, delays := [] }
  | fuel + 1, attempt =>
      match oracle attempt with
      | .ok r => { result := some r, attempts := attempt + 1, delays := [] }
      | .httpError status =>
          if status ∈ RETRYABLE_STATUS_CODES ∧ attempt < MAX_RETRIES - 1 then
            let rest := query_model_loop oracle fuel (attempt + 1)
            { result := rest.result, attempts := rest.attempts,
              delays := RETRY_BASE_DELAY * 2 ^ attempt :: rest.delays }
          else { result := none, attempts := attempt + 1, delays := [] }
      | .timeout => { result := none, attempts := attempt + 1, delays := [] }
      | .otherError => { result := none, attempts := attempt + 1, delays := [] }

/-- openrouter.py `query_model` (lines 67-201): run the retry loop from
attempt 0 with `MAX_RETRIES` iterations available. -/
def query_model (oracle : Nat → UpstreamOutcome) : CallTrace :=
  query_model_loop oracle MAX_RETRIES 0

/-- openrouter.py lines 319-464, the loop of `query_model_streaming`.
Identical to `query_model_loop` except that a `TimeoutException` IS retried
while `attempt < MAX_RETRIES - 1` (lines 439-447). -/
def query_model_streaming_loop (oracle : Nat → UpstreamOutcome) :
    Nat → Nat → CallTrace
  | 0, attempt => { result := none, attempts := attempt, delays := [] }
  | fuel + 1, attempt =>
      match oracle attempt with
      | .ok r => { result := some r, attempts := attempt + 1, delays := [] }
      | .httpError status =>
          if status ∈ RETRYABLE_STATUS_CODES ∧ attempt < MAX_RETRIES - 1 then
            let rest := query_model_streaming_loop oracle fuel (attempt + 1)
            { result := rest.result, attempts := rest.attempts,
              delays := RETRY_BASE_DELAY * 2 ^ attempt :: rest.delays }
          else { result := none, attempts := attempt + 1, delays := [] }
      | .timeout =>
          if attempt < MAX_RETRIES - 1 then
            let rest := query_model_streaming_loop oracle fuel (attempt + 1)
            { result := rest.result, attempts := rest.attempts,
              delays := RETRY_BASE_DELAY * 2 ^ attempt :: rest.delays }
          else { result := none, attempts := attempt + 1, delays := [] }
      | .otherError => { result := none, attempts := attempt + 1, delays := [] }

/-- openrouter.py `query_model_streaming` (lines 279-464). -/
def query_model_streaming (oracle : Nat → UpstreamOutcome) : CallTrace :=
  query_model_streaming_loop oracle MAX_RETRIES 0

/-- openrouter.py `query_models_parallel` (lines 204-276): every model is
queried via `query_model` and the result dict maps each model to its return
value — which is `None` for a terminally failed call (there is no ModelError
type anywhere in src/backend/openrouter.py). `oracle m n` is the outcome of
the n-th upstream attempt for model m. -/
def query_models_parallel (models : List String)
    (oracle : String → Nat → UpstreamOutcome) :
    List (String × Option QueryResponse) :=
  models.map (fun m => (m, (query_model (oracle m)).result))

/-! ## C5: zero stage-1 responses (council_stream.py / council.py) -/

/-- SSE event types emitted by the council pipeline (council_stream.py). -/
inductive Event where
  | resume_start
  | stage1_start
  | stage1_model_response
  | stage1_complete
  | stage2_start
  | stage2_complete
  | stage3_start
  | stage3_complete
  | metrics_complete
  | title_complete
  | complete
  | error
deriving Repr, DecidableEq

/-- The partial-data bag written into the pending marker by
`storage.update_pending_progress`: council_stream.py line 265 writes only
the stage1 key, line 304 stage1 + stage2 + metadata, and the exception
handler at line 362 writes only an error key. -/
structure PartialData where
  stage1 : Option (List Stage1Result)
  stage2 : Option (List Stage2Result)
  hasMetadata : Bool
  error : Option String
deriving Repr, DecidableEq

/-- Storage-module operations invoked by the pipeline. -/
inductive StorageOp where
  | add_user_message
  | mark_response_pending
  | update_pending_progress (d : PartialData)
  | update_conversation_title
  | add_unified_message
  | clear_pending
deriving Repr, DecidableEq

/-- A raised Python exception, carrying `str(e)`. -/
structure RaisedError where
  message : String
deriving Repr, DecidableEq

/-- council.py lines 22-26: the parameters accepted by
`stage1_collect_responses` are exactly `user_query`,
`web_search_context` and `council_models`. -/
def stage1_collect_responses_params : List String :=
  ["user_query", "web_search_context", "council_models"]

/-- council_stream.py lines 129-137: `_stream_stage1` invokes
`stage1_collect_responses` with three positional arguments PLUS these
keyword arguments. -/
def stream_stage1_kwargs : List String :=
  ["on_model_response", "on_progress", "stream_tokens", "on_token"]

/-- The Stage-1 invocation made by `_stream_stage1` under Python call
semantics: a keyword argument that is not a parameter of the callee raises
`TypeError` before the body runs, so the fan-out outcome
(`stage1_fanout`, the list the body would have produced) is consulted only
when every keyword is accepted. In this source tree the first keyword,
`on_model_response`, is already not a parameter, so the call always
raises. -/
def call_stage1_from_stream (stage1_fanout : List Stage1Result) :
    Except RaisedError (List Stage1Result) :=
  match stream_stage1_kwargs.find?
      (fun k => !stage1_collect_responses_params.contains k) with
  | some k =>
      .error ⟨"stage1_collect_responses() got an unexpected keyword argument "
        ++ k⟩
  | none => .ok stage1_fanout

/-- The observable trace of one `run_council_pipeline` run. -/
structure PipelineRun where
  events : List Event
  storage : List StorageOp
  stage2_called : Bool
  stage1_results : List Stage1Result
deriving Repr, DecidableEq

/-- council_stream.py `run_council_pipeline` (lines 152-365) with web
search disabled, no attachments and no prior context, parameterised by the
pending-marker contents and the stage-call outcomes.

* Resume check (lines 182-197): `can_resume` requires the explicit resume
  flag AND a truthy (non-empty) stage1 list in the pending marker; the
  resume path re-emits the cached stage1 and continues with stages 2/3
  (whose calls match their callee signatures and are assumed to return
  normally), lines 271-354.
* Normal flow (lines 199-269): after `add_user_message`,
  `mark_response_pending` and the `stage1_start` event, `_stream_stage1`
  invokes `stage1_collect_responses` with keyword arguments the callee
  does not accept (see `call_stage1_from_stream`), so the call raises
  `TypeError` inside the bridge task before any stage-1 event or result is
  produced; `await task` (line 149) re-raises it into the pipeline, whose
  handler (lines 356-365) writes a pending update holding only the error
  key and yields one terminal `error` event.
* The continuation after a successful Stage-1 return (lines 258-354) is
  kept to mirror the source text, but it is unreachable: the keyword
  mismatch makes `call_stage1_from_stream` return an error for every
  input. -/
def run_council_pipeline (resume : Bool)
    (pending_stage1 : Option (List Stage1Result))
    (stage1_fanout : List Stage1Result)
    (stage2_results : List Stage2Result) (stage3_result : Stage3Result)
    (is_first_message : Bool) : PipelineRun :=
  let can_resume := resume &&
    (match pending_stage1 with
     | some l => !l.isEmpty
     | none => false)
  if can_resume then
    let stage1_results := pending_stage1.getD []
    { events := [Event.resume_start, Event.stage1_complete,
        Event.stage2_start, Event.stage2_complete, Event.stage3_start,
        Event.stage3_complete, Event.metrics_complete, Event.complete],
      storage := [StorageOp.update_pending_progress
          { stage1 := some stage1_results, stage2 := some stage2_results,
            hasMetadata := true, error := none },
        StorageOp.add_unified_message, StorageOp.clear_pending],
      stage2_called := true,
      stage1_results := stage1_results }
  else
    match call_stage1_from_stream stage1_fanout with
    | .error e =>
        { events := [Event.stage1_start, Event.error],
          storage := [StorageOp.add_user_message,
            StorageOp.mark_response_pending,
            StorageOp.update_pending_progress
              { stage1 := none, stage2 := none, hasMetadata := false,
                error := some e.message }],
          stage2_called := false,
          stage1_results := [] }
    | .ok stage1_results =>
        { events := [Event.stage1_start]
            ++ stage1_results.map (fun _ => Event.stage1_model_response)
            ++ [Event.stage1_complete, Event.stage2_start,
                Event.stage2_complete, Event.stage3_start,
                Event.stage3_complete, Event.metrics_complete]
            ++ (if is_first_message then [Event.title_complete] else [])
            ++ [Event.complete],
          storage := [StorageOp.add_user_message,
            StorageOp.mark_response_pending,
            StorageOp.update_pending_progress
              { stage1 := some stage1_results, stage2 := none,
                hasMetadata := false, error := none },
            StorageOp.update_pending_progress
              { stage1 := some stage1_results, stage2 := some stage2_results,
                hasMetadata := true, error := none }]
            ++ (if is_first_message then [StorageOp.update_conversation_title]
                else [])
            ++ [StorageOp.add_unified_message, StorageOp.clear_pending],
          stage2_called := true,
          stage1_results := stage1_results }

/-- council.py `run_full_council` (lines 556-620) with web search disabled,
parameterised by the stage outcomes. Lines 586-590: an empty stage-1 list
short-circuits with the error stage-3 dict and NO stage-2 call. Returns
((stage1, stage2, stage3 model/response), whether stage 2 was invoked). -/
def run_full_council (stage1_results : List Stage1Result)
    (stage2_results : List Stage2Result) (stage3_result : Stage3Result) :
    (List Stage1Result × List Stage2Result × (String × String)) × Bool :=
  if stage1_results.isEmpty then
    (([], [], ("error", "All models failed to respond. Please try again.")),
     false)
  else
    ((stage1_results, stage2_results,
      (stage3_result.model, stage3_result.response)), true)

/-! ## C7: ranking parsing and aggregate rankings (council.py lines 314-492)

The source regexes are `r"\d+\.\s*Response [A-Z]"` and `r"Response [A-Z]"`
(a SINGLE uppercase letter after the space). `re.findall` scans left to
right and returns non-overlapping matches; the scanners below implement
exactly that. A fuel argument (initialised to the input length, an upper
bound on the number of scan steps) keeps the recursion structural.
-/

/-- The regex class `[A-Z]`. -/
def isUpperAZ (c : Char) : Bool := 65 ≤ c.toNat && c.toNat ≤ 90

/-- The regex class `\d`. -/
def isDigitCh (c : Char) : Bool := 48 ≤ c.toNat && c.toNat ≤ 57

/-- The regex class `\s` (ASCII whitespace; the pipeline strings contain no
Unicode whitespace). -/
def isSpaceCh (c : Char) : Bool :=
  c == ' ' || c == '\t' || c == '\n' || c == Char.ofNat 11 ||
    c == Char.ofNat 12 || c == '\r'

/-- Try to match `Response [A-Z]` at the head of s; on success return the
matched label and the remaining characters after the match. -/
def matchRespAt (s : List Char) : Option (String × List Char) :=
  if charsPrefixOf "Response ".toList s then
    match s.drop 9 with
    | c :: rest =>
        if isUpperAZ c then some (String.mk ("Response ".toList ++ [c]), rest)
        else none
    | [] => none
  else none

/-- `re.findall(r"Response [A-Z]", text)`: left-to-right non-overlapping
scan. -/
def findallRespGo : Nat → List Char → List String
  | 0, _ => []
  | _, [] => []
  | fuel + 1, s =>
      match matchRespAt s with
      | some (m, after) => m :: findallRespGo fuel after
      | none =>
          match s with
          | [] => []
          | _ :: rest => findallRespGo fuel rest

def findallResp (s : List Char) : List String := findallRespGo s.length s

/-- Try to match `\d+\.\s*Response [A-Z]` at the head of s. The source then
extracts the label via `re.search(r"Response [A-Z]", m).group()`; since the
digit/dot/space prefix contains no letters, that is the trailing
`Response [A-Z]` part, which is what this function returns. -/
def matchNumberedAt (s : List Char) : Option (String × List Char) :=
  let digits := s.takeWhile isDigitCh
  if digits.isEmpty then none
  else
    match s.drop digits.length with
    | '.' :: rest1 =>
        let rest2 := rest1.dropWhile isSpaceCh
        matchRespAt rest2
    | _ => none

/-- `re.findall(r"\d+\.\s*Response [A-Z]", text)`, each match mapped to its
`Response [A-Z]` part (council.py lines 334-337). -/
def findallNumberedGo : Nat → List Char → List String
  | 0, _ => []
  | _, [] => []
  | fuel + 1, s =>
      match matchNumberedAt s with
      | some (m, after) => m :: findallNumberedGo fuel after
      | none =>
          match s with
          | [] => []
          | _ :: rest => findallNumberedGo fuel rest

def findallNumbered (s : List Char) : List String :=
  findallNumberedGo s.length s

/-- Split at the FIRST occurrence of pat: `some (before, after)` where
`before ++ pat ++ after = s`, or `none` when pat does not occur. -/
def splitFirst (pat : List Char) : List Char → Option (List Char × List Char)
  | [] => if charsPrefixOf pat [] then some ([], []) else none
  | s@(c :: rest) =>
      if charsPrefixOf pat s then some ([], s.drop pat.length)
      else (splitFirst pat rest).map (fun p => (c :: p.1, p.2))

/-- council.py `parse_ranking_from_text` (lines 314-345).
`Python: if "FINAL RANKING:" in ranking_text: parts =
ranking_text.split("FINAL RANKING:"); ranking_section = parts[1]` —
`parts[1]` is the text strictly between the first occurrence and the next
occurrence (or the end). Then the numbered extraction, falling back to raw
`Response [A-Z]` occurrences in the section, falling back (when the marker
is absent) to raw occurrences in the whole text. When the marker occurs,
`len(parts) >= 2` always holds, so that source check is vacuous. -/
def parse_ranking_from_text (ranking_text : String) : List String :=
  let t := ranking_text.toList
  match splitFirst "FINAL RANKING:".toList t with
  | some (_, after) =>
      let ranking_section :=
        match splitFirst "FINAL RANKING:".toList after with
        | some (before, _) => before
        | none => after
      let numbered_matches := findallNumbered ranking_section
      if !numbered_matches.isEmpty then numbered_matches
      else findallResp ranking_section
  | none => findallResp t

/-- `model_positions[model_name].append(position)` on an insertion-ordered
association list (Python defaultdict(list) preserves first-insertion
order). -/
def appendPos (mp : List (String × List Nat)) (model : String) (pos : Nat) :
    List (String × List Nat) :=
  match mp with
  | [] => [(model, [pos])]
  | (m, ps) :: rest =>
      if m == model then (m, ps ++ [pos]) :: rest
      else (m, ps) :: appendPos rest model pos

/-- council.py lines 473-476:
`for position, label in enumerate(parsed_ranking, start=1):
   if label in label_to_model: model_positions[label_to_model[label]].append(position)`. -/
def collectGo (label_to_model : List (String × String)) :
    Nat → List String → List (String × List Nat) → List (String × List Nat)
  | _, [], mp => mp
  | pos, label :: rest, mp =>
      match label_to_model.lookup label with
      | some model =>
          collectGo label_to_model (pos + 1) rest (appendPos mp model pos)
      | none => collectGo label_to_model (pos + 1) rest mp

/-- council.py lines 465-476: the `model_positions` accumulation over all
stage-2 rankings (each ranking text re-parsed via
`parse_ranking_from_text`, line 471). -/
def model_positions (stage2_results : List Stage2Result)
    (label_to_model : List (String × String)) : List (String × List Nat) :=
  stage2_results.foldl
    (fun mp ranking =>
      collectGo label_to_model 1 (parse_ranking_from_text ranking.ranking) mp)
    []

/-- One row of the aggregate ranking (council.py lines 483-487). -/
structure AggregateEntry where
  model : String
  average_rank : Rat
  rankings_count : Nat
deriving Repr, DecidableEq

/-- Python 3 `round(x, 2)` with round-half-to-even, on exact rationals. -/
def roundHalfEven (x : Rat) : Int :=
  let f : Int := ⌊x⌋
  let frac := x - (f : Rat)
  if frac < 1 / 2 then f
  else if 1 / 2 < frac then f + 1
  else if f % 2 = 0 then f else f + 1

def round2 (x : Rat) : Rat := (roundHalfEven (x * 100) : Rat) / 100

/-- council.py `calculate_aggregate_rankings` (lines 448-492): average each
model\x27s positions (`round(avg, 2)`), then `aggregate.sort(key=lambda x:
x["average_rank"])` — a stable ascending sort, modelled by `mergeSort`. -/
def calculate_aggregate_rankings (stage2_results : List Stage2Result)
    (label_to_model : List (String × String)) : List AggregateEntry :=
  let mp := model_positions stage2_results label_to_model
  let aggregate := mp.foldr
    (fun p acc =>
      if !p.2.isEmpty then
        { model := p.1,
          average_rank := round2 ((p.2.sum : Rat) / (p.2.length : Rat)),
          rankings_count := p.2.length } :: acc
      else acc) []
  aggregate.mergeSort (fun a b => decide (a.average_rank ≤ b.average_rank))

/-- The length of the longest parsed ranking among the stage-2 critiques. -/
def maxParsedLen (stage2_results : List Stage2Result) : Nat :=
  (stage2_results.map
    (fun r => (parse_ranking_from_text r.ranking).length)).foldr max 0

/-- All positions in the accumulator lie in [1, b]. -/
def PosBound (b : Nat) (mp : List (String × List Nat)) : Prop :=
  ∀ pair ∈ mp, ∀ p ∈ pair.2, 1 ≤ p ∧ p ≤ b

/-- Every model key of the accumulator is the image of some label of the
label→model map. -/
def MapRange (label_to_model : List (String × String))
    (mp : List (String × List Nat)) : Prop :=
  ∀ pair ∈ mp, ∃ lab, label_to_model.lookup lab = some pair.1

/-! ## C8: pending-marker staleness (storage.py lines 12-13, 560-585) -/

/-- storage.py line 13: `PENDING_STALE_TIMEOUT_SECONDS = 600` (10 minutes). -/
def PENDING_STALE_TIMEOUT_SECONDS : Rat := 600

/-- A timestamp field of the pending marker as consumed by
`is_pending_stale`: `absent` models a missing key, Python `None`, or the
falsy empty string (all skipped by the `or` on line 573 and caught by
`if not last_update_str` on line 574); `invalid` a non-empty string rejected
by `datetime.fromisoformat` (line 578, caught on line 584); `valid t` a
string parsing to the absolute time t in seconds (timezone-normalised as in
lines 579-580). -/
inductive TimestampField where
  | absent
  | invalid
  | valid (t : Rat)
deriving Repr, DecidableEq

/-- The two fields of the pending marker read by `is_pending_stale`. -/
structure PendingInfo where
  last_update : TimestampField
  started_at : TimestampField
deriving Repr, DecidableEq

/-- storage.py line 573:
`last_update_str = pending_info.get("last_update") or pending_info.get("started_at")`. -/
def effectiveTimestamp (pending_info : PendingInfo) : TimestampField :=
  match pending_info.last_update with
  | .absent => pending_info.started_at
  | f => f

/-- storage.py `is_pending_stale` (lines 560-585): falsy field → `True`;
parse failure → `True`; otherwise `elapsed > timeout_seconds` with
`elapsed = (now - last_update).total_seconds()`. -/
def is_pending_stale (now : Rat) (pending_info : PendingInfo)
    (timeout_seconds : Rat := PENDING_STALE_TIMEOUT_SECONDS) : Bool :=
  match effectiveTimestamp pending_info with
  | .absent => true
  | .invalid => true
  | .valid t => decide (now - t > timeout_seconds)

/-! ## C9: unified deliberation data model (deliberation/deliberation.py)

Serialization model: `X.to_dict` produces a dict whose key set depends on
the truthiness of optional fields; the dict is embedded as a structure in
which a conditionally-written key is an `Option` field (`none` = key
absent). `RoundType(str, Enum)` members compare equal (Python `==`) to
their value strings, `to_dict` writes `round_type.value`, and
`Round.from_dict` maps a valid value string to the corresponding enum
member (equal to that same string) and keeps an invalid string unchanged —
so `round_type` is modeled by its string value, on which both directions
are the identity.
-/

/-- `Metrics` dataclass (deliberation.py lines 21-49). -/
structure Metrics where
  cost : Rat
  total_tokens : Int
  latency_ms : Int
  provider : Option String
deriving Repr, DecidableEq

/-- Image of `Metrics.to_dict`: the three numeric keys are always written;
`provider` only when truthy. -/
structure MetricsDict where
  cost : Rat
  total_tokens : Int
  latency_ms : Int
  provider : Option String
deriving Repr, DecidableEq

/-- deliberation.py lines 30-39. -/
def Metrics.to_dict (m : Metrics) : MetricsDict :=
  { cost := m.cost, total_tokens := m.total_tokens,
    latency_ms := m.latency_ms,
    provider := match m.provider with
      | some p => if p = "" then none else some p
      | none => none }

/-- Python `x or 0` on a number (0 is falsy, mapped to the default 0). -/
def orZeroRat (x : Rat) : Rat := if x = 0 then 0 else x

/-- Python `x or 0` on an int. -/
def orZeroInt (x : Int) : Int := if x = 0 then 0 else x

/-- deliberation.py lines 41-49:
`cost=data.get("cost", 0.0) or 0.0` etc.; `provider=data.get("provider")`. -/
def Metrics.from_dict (d : MetricsDict) : Metrics :=
  { cost := orZeroRat d.cost, total_tokens := orZeroInt d.total_tokens,
    latency_ms := orZeroInt d.latency_ms, provider := d.provider }

/-- `ParticipantResponse` dataclass (deliberation.py lines 52-99). -/
structure ParticipantResponse where
  participant : String
  model : String
  content : String
  metrics : Option Metrics
  reasoning_details : Option String
  parsed_ranking : Option (List String)
deriving Repr, DecidableEq

/-- Image of `ParticipantResponse.to_dict`. -/
structure ParticipantResponseDict where
  participant : String
  model : String
  content : String
  metrics : Option MetricsDict
  reasoning_details : Option String
  parsed_ranking : Option (List String)
deriving Repr, DecidableEq

/-- deliberation.py lines 70-83: `metrics` written iff not None (a
dataclass instance is always truthy); `reasoning_details` and
`parsed_ranking` written iff truthy (non-None and non-empty). -/
def ParticipantResponse.to_dict (p : ParticipantResponse) :
    ParticipantResponseDict :=
  { participant := p.participant, model := p.model, content := p.content,
    metrics := p.metrics.map Metrics.to_dict,
    reasoning_details := match p.reasoning_details with
      | some s => if s = "" then none else some s
      | none => none,
    parsed_ranking := match p.parsed_ranking with
      | some l => if l.isEmpty then none else some l
      | none => none }

/-- deliberation.py lines 85-99: `if data.get("metrics")` is truthy exactly
when the key is present (a written metrics dict always has three keys);
`content=data.get("content", data.get("response", ""))` — `content` is
always present in a `to_dict` image. -/
def ParticipantResponse.from_dict (d : ParticipantResponseDict) :
    ParticipantResponse :=
  { participant := d.participant, model := d.model, content := d.content,
    metrics := d.metrics.map Metrics.from_dict,
    reasoning_details := d.reasoning_details,
    parsed_ranking := d.parsed_ranking }

/-- `Round` dataclass (deliberation.py lines 102-150); `round_type` modeled
by its value string (see the section comment); `metadata` is an opaque
dict, embedded as an association list. -/
structure Round where
  round_number : Int
  round_type : String
  responses : List ParticipantResponse
  metadata : List (String × String)
  metrics : Option Metrics
deriving Repr, DecidableEq

/-- Image of `Round.to_dict`. -/
structure RoundDict where
  round_number : Int
  round_type : String
  responses : List ParticipantResponseDict
  metadata : Option (List (String × String))
  metrics : Option MetricsDict
deriving Repr, DecidableEq

/-- deliberation.py lines 115-126: `metadata` written iff non-empty,
`metrics` iff not None. -/
def Round.to_dict (r : Round) : RoundDict :=
  { round_number := r.round_number, round_type := r.round_type,
    responses := r.responses.map ParticipantResponse.to_dict,
    metadata := if r.metadata.isEmpty then none else some r.metadata,
    metrics := r.metrics.map Metrics.to_dict }

/-- deliberation.py lines 128-150: metadata defaults to the empty dict
when the key is absent. -/
def Round.from_dict (d : RoundDict) : Round :=
  { round_number := d.round_number, round_type := d.round_type,
    responses := d.responses.map ParticipantResponse.from_dict,
    metadata := d.metadata.getD [],
    metrics := d.metrics.map Metrics.from_dict }

/-- `Synthesis` dataclass (deliberation.py lines 153-189). -/
structure Synthesis where
  model : String
  content : String
  metrics : Option Metrics
  reasoning_details : Option String
deriving Repr, DecidableEq

/-- Image of `Synthesis.to_dict`. -/
structure SynthesisDict where
  model : String
  content : String
  metrics : Option MetricsDict
  reasoning_details : Option String
deriving Repr, DecidableEq

/-- deliberation.py lines 165-175. -/
def Synthesis.to_dict (s : Synthesis) : SynthesisDict :=
  { model := s.model, content := s.content,
    metrics := s.metrics.map Metrics.to_dict,
    reasoning_details := match s.reasoning_details with
      | some t => if t = "" then none else some t
      | none => none }

/-- deliberation.py lines 177-189. -/
def Synthesis.from_dict (d : SynthesisDict) : Synthesis :=
  { model := d.model, content := d.content,
    metrics := d.metrics.map Metrics.from_dict,
    reasoning_details := d.reasoning_details }

/-- `DeliberationResult` dataclass (deliberation.py lines 192-233); the
aggregated `metrics` dict is opaque, embedded as an association list. -/
structure DeliberationResult where
  mode : String
  rounds : List Round
  synthesis : Option Synthesis
  participant_mapping : List (String × String)
  metrics : List (String × Rat)
deriving Repr, DecidableEq

/-- Image of `DeliberationResult.to_dict`. -/
structure DeliberationResultDict where
  mode : String
  rounds : List RoundDict
  synthesis : Option SynthesisDict
  participant_mapping : Option (List (String × String))
  metrics : Option (List (String × Rat))
deriving Repr, DecidableEq

/-- deliberation.py lines 205-217: `synthesis` written iff not None;
`participant_mapping` and `metrics` iff non-empty. -/
def DeliberationResult.to_dict (r : DeliberationResult) :
    DeliberationResultDict :=
  { mode := r.mode, rounds := r.rounds.map Round.to_dict,
    synthesis := r.synthesis.map Synthesis.to_dict,
    participant_mapping :=
      if r.participant_mapping.isEmpty then none
      else some r.participant_mapping,
    metrics := if r.metrics.isEmpty then none else some r.metrics }

/-- deliberation.py lines 219-233: `if data.get("synthesis")` is truthy
exactly when the key is present (a written synthesis dict is non-empty). -/
def DeliberationResult.from_dict (d : DeliberationResultDict) :
    DeliberationResult :=
  { mode := d.mode, rounds := d.rounds.map Round.from_dict,
    synthesis := d.synthesis.map Synthesis.from_dict,
    participant_mapping := d.participant_mapping.getD [],
    metrics := d.metrics.getD [] }

/-- No optional field of a `Metrics` value is present-but-falsy. -/
def Metrics.wellFormed (m : Metrics) : Bool :=
  m.provider != some ""

/-- No optional field is present-but-falsy (`reasoning_details` is not the
present empty string, `parsed_ranking` is not the present empty list). -/
def ParticipantResponse.wellFormed (p : ParticipantResponse) : Bool :=
  (match p.metrics with | some m => m.wellFormed | none => true) &&
    p.reasoning_details != some "" &&
    p.parsed_ranking != some ([] : List String)

/-- All responses and the optional round metrics are well-formed. -/
def Round.wellFormed (r : Round) : Bool :=
  r.responses.all ParticipantResponse.wellFormed &&
    (match r.metrics with | some m => m.wellFormed | none => true)

/-- No optional field is present-but-falsy. -/
def Synthesis.wellFormed (s : Synthesis) : Bool :=
  (match s.metrics with | some m => m.wellFormed | none => true) &&
    s.reasoning_details != some ""

/-- All rounds and the optional synthesis are well-formed. -/
def DeliberationResult.wellFormed (d : DeliberationResult) : Bool :=
  d.rounds.all Round.wellFormed &&
    (match d.synthesis with | some s => s.wellFormed | none => true)

/-! ## C10: remove_last_user_message (storage.py lines 588-607) -/

/-- A stored message at the granularity read by
`remove_last_user_message`: its role and an opaque payload. -/
structure Message where
  role : String
  payload : String
deriving Repr, DecidableEq

/-- A stored conversation; the fields other than `messages` (id, title,
model configuration) are not read by `remove_last_user_message`. -/
structure Conversation where
  messages : List Message
deriving Repr, DecidableEq

/-- storage.py `remove_last_user_message` (lines 588-607). The input is the
stored conversation for the requested id (`none` when the file is absent);
the output is the stored conversation after the call plus the returned
bool. `get_conversation` (line 600) applies the in-memory legacy→unified
migration, which rewrites assistant payloads but neither adds nor removes
messages nor changes roles, so at this granularity the stored value is read
directly. Only the true branch calls `save_conversation` (line 604); the
removed slice is `messages[:-1]` (line 603). -/
def remove_last_user_message (stored : Option Conversation) :
    Option Conversation × Bool :=
  match stored with
  | none => (none, false)
  | some conversation =>
      if conversation.messages.isEmpty then (some conversation, false)
      else
        match conversation.messages.getLast? with
        | some m =>
            if m.role == "user" then
              (some { conversation with
                        messages := conversation.messages.dropLast }, true)
            else (some conversation, false)
        | none => (some conversation, false)

/-! ### Claim theorems for C1 and C2 -/

/-- Claim C1 (code_bug evidence): the chairman prompt built by
`stage3_synthesize_final` DOES contain a council member model identifier.
At the exact fixture of `src/tests/test_stage3.py` (stage-1 results from
`openai/gpt-4o` and `anthropic/claude-3`), the prompt contains the literal
substrings `openai/gpt-4o` and `anthropic/claude-3`, violating the
test-enforced anonymity invariant the claim states. -/
theorem C1_chairman_prompt_leaks_model_ids :
    strContains
      (chairman_prompt "test question"
        [⟨"openai/gpt-4o", "Answer from GPT"⟩,
         ⟨"anthropic/claude-3", "Answer from Claude"⟩]
        [⟨"openai/gpt-4o", "Response A is better. FINAL RANKING:\n1. Response A\n2. Response B"⟩,
         ⟨"anthropic/claude-3", "Response B is better. FINAL RANKING:\n1. Response B\n2. Response A"⟩])
      "openai/gpt-4o" = true ∧
    strContains
      (chairman_prompt "test question"
        [⟨"openai/gpt-4o", "Answer from GPT"⟩,
         ⟨"anthropic/claude-3", "Answer from Claude"⟩]
        [⟨"openai/gpt-4o", "Response A is better. FINAL RANKING:\n1. Response A\n2. Response B"⟩,
         ⟨"anthropic/claude-3", "Response B is better. FINAL RANKING:\n1. Response B\n2. Response A"⟩])
      "anthropic/claude-3" = true := by
  constructor <;> decide

/-- Claim C2 (code_bug evidence): the label assignment `chr(65 + i)` used for
stage-1 responses (council.py line 133) and arena participants (arena.py
line 140) does NOT produce `AA` at index 26: for K = 27 the 27th label is
the non-letter `[` (chr(91)), so labels are not uppercase-alpha and the
test-enforced `labels(27)[26] == "AA"` is violated. -/
theorem C2_label27_is_bracket_not_AA :
    (stage2Labels 27)[26]? = some "[" ∧
    "[" ≠ "AA" ∧
    isUpperAlphaStr "[" = false ∧
    (create_participant_mapping (List.replicate 27 "m")).getLast?
      = some ("Participant [", "m") := by
  refine ⟨by decide, by decide, by decide, by decide⟩

/-- Claim C3 (code_bug evidence): when one model in a fan-out terminally
fails (here: HTTP 400 on `model-a`), the result map built by
`query_models_parallel` stores Python `None` for that model — the very value
that also denotes a missing response — and not a tagged ModelError
structure. The ModelError type required by `src/tests/test_query_model.py`
does not exist in src/backend/openrouter.py. -/
theorem C3_failure_stored_as_none :
    query_models_parallel ["model-a", "model-b"]
        (fun m _ => if m = "model-a" then .httpError 400
                    else .ok { content := "hello world", metrics := [] })
      = [("model-a", none),
         ("model-b", some { content := "hello world", metrics := [] })] := by
  rfl

/-- Claim C4 (code_bug evidence): `stage3_synthesize_final` issues exactly
ONE chairman call and already returns the `Error:`-prefixed synthesis with
empty metrics after that single failure, even when a second call would have
succeeded — there is no pipeline-layer retry in src/backend/council.py
(contradicting `src/tests/test_stage3.py::TestStage3Retry`, which requires
`call_count == 2`). -/
theorem C4_stage3_single_call_no_retry :
    stage3_synthesize_final "model-chairman"
        (fun n => if n = 0 then none
                  else some { content := "Synthesis result",
                              metrics := [("total_tokens", 100)] })
      = ({ model := "model-chairman",
           response := "Error: Unable to generate final synthesis.",
           metrics := [] }, 1) := by
  rfl

/-- Claim C6: the gateway retry policy of src/backend/openrouter.py.
For any upstream status s and any successful body r:
(1) a call that keeps failing with a retryable status (408/429/502/503) is
attempted 3 times with back-off sleeps of 1 s then 2 s and returns `None`;
(2) a retryable failure followed by success is retried after a 1 s sleep;
(3) any other HTTP status fails on the first attempt with no sleep;
(4) a non-streaming timeout is NOT retried;
(5) a streaming timeout IS retried, up to 3 attempts with sleeps 1 s, 2 s. -/
theorem C6_retry_policy (s : Nat) (r : QueryResponse) :
    (s ∈ RETRYABLE_STATUS_CODES →
      query_model (fun _ => .httpError s) =
        { result := none, attempts := 3, delays := [1, 2] }) ∧
    (s ∈ RETRYABLE_STATUS_CODES →
      query_model (fun n => if n = 0 then .httpError s else .ok r) =
        { result := some r, attempts := 2, delays := [1] }) ∧
    (s ∉ RETRYABLE_STATUS_CODES →
      query_model (fun _ => .httpError s) =
        { result := none, attempts := 1, delays := [] }) ∧
    query_model (fun _ => .timeout) =
      { result := none, attempts := 1, delays := [] } ∧
    query_model_streaming (fun _ => .timeout) =
      { result := none, attempts := 3, delays := [1, 2] } := by
  refine ⟨fun h => ?_, fun h => ?_, fun h => ?_, ?_, ?_⟩
  · simp [query_model, query_model_loop, MAX_RETRIES, RETRY_BASE_DELAY, h]
  · simp [query_model, query_model_loop, MAX_RETRIES, RETRY_BASE_DELAY, h]
  · simp [query_model, query_model_loop, MAX_RETRIES, h]
  · rfl
  · simp [query_model_streaming, query_model_streaming_loop, MAX_RETRIES,
      RETRY_BASE_DELAY]

/-- Witness for C6: the retryable branch at status 429 and the
non-retryable branch at status 400, evaluated concretely. -/
theorem C6_retry_policy_witness :
    query_model (fun _ => .httpError 429) =
      { result := none, attempts := 3, delays := [1, 2] } ∧
    query_model (fun _ => .httpError 400) =
      { result := none, attempts := 1, delays := [] } :=
  ⟨(C6_retry_policy 429 { content := "x", metrics := [] }).1 (by decide),
   (C6_retry_policy 400 { content := "x", metrics := [] }).2.2.1 (by decide)⟩

/-- Any run of the streaming pipeline whose stage-1 result list is empty
is a non-resume run and reduces to the TypeError short-circuit trace. -/
theorem run_council_pipeline_stage1_empty (resume : Bool)
    (pending_stage1 : Option (List Stage1Result))
    (stage1_fanout : List Stage1Result)
    (stage2_results : List Stage2Result) (stage3_result : Stage3Result)
    (is_first_message : Bool)
    (h : (run_council_pipeline resume pending_stage1 stage1_fanout
        stage2_results stage3_result is_first_message).stage1_results = []) :
    run_council_pipeline resume pending_stage1 stage1_fanout stage2_results
        stage3_result is_first_message =
      { events := [Event.stage1_start, Event.error],
        storage := [StorageOp.add_user_message,
          StorageOp.mark_response_pending,
          StorageOp.update_pending_progress
            { stage1 := none, stage2 := none, hasMetadata := false,
              error := some
                ("stage1_collect_responses() got an unexpected keyword argument "
                  ++ "on_model_response") }],
        stage2_called := false,
        stage1_results := [] } := by
  cases resume with
  | false => rfl
  | true =>
      cases pending_stage1 with
      | none => rfl
      | some l =>
          cases l with
          | nil => rfl
          | cons a rest =>
              exfalso
              have hres : (run_council_pipeline true (some (a :: rest))
                  stage1_fanout stage2_results stage3_result
                  is_first_message).stage1_results = a :: rest := rfl
              rw [hres] at h
              exact List.cons_ne_nil a rest h

/-- Claim C5: every council pipeline run in which Stage 1 yields zero
successful responses short-circuits. In the streaming pipeline such a run
is necessarily a non-resume run (the resume gate at council_stream.py
lines 182-187 requires a non-empty cached stage1 list), and every
non-resume run raises `TypeError` at the Stage-1 invocation (the keyword
mismatch modelled by `call_stage1_from_stream`): the handler emits one
terminal `error` event, Stage 2 is never called, and the only
pending-marker update holds an error key — an empty stage1 list is never
written. The non-streaming `run_full_council` short-circuits explicitly
(council.py lines 586-590): error result, no Stage 2 call. -/
theorem C5_zero_stage1_shortcircuit (resume : Bool)
    (pending_stage1 : Option (List Stage1Result))
    (stage1_fanout : List Stage1Result)
    (stage2_results : List Stage2Result) (stage3_result : Stage3Result)
    (is_first_message : Bool)
    (h : (run_council_pipeline resume pending_stage1 stage1_fanout
        stage2_results stage3_result is_first_message).stage1_results = []) :
    (run_council_pipeline resume pending_stage1 stage1_fanout
        stage2_results stage3_result is_first_message).events.getLast?
      = some Event.error ∧
    (run_council_pipeline resume pending_stage1 stage1_fanout
        stage2_results stage3_result is_first_message).stage2_called
      = false ∧
    (∀ d, StorageOp.update_pending_progress d
        ∈ (run_council_pipeline resume pending_stage1 stage1_fanout
            stage2_results stage3_result is_first_message).storage →
      d.stage1 ≠ some []) ∧
    run_full_council [] stage2_results stage3_result =
      (([], [], ("error", "All models failed to respond. Please try again.")),
       false) := by
  have hrun := run_council_pipeline_stage1_empty resume pending_stage1
    stage1_fanout stage2_results stage3_result is_first_message h
  rw [hrun]
  refine ⟨rfl, rfl, ?_, rfl⟩
  intro d hd
  simp only [List.mem_cons, List.not_mem_nil, or_false] at hd
  rcases hd with hd | hd | hd
  · cases hd
  · cases hd
  · cases hd
    simp

/-- Witness for C5_zero_stage1_shortcircuit: a concrete fresh (non-resume)
run, whose stage-1 result list is empty. -/
theorem C5_zero_stage1_shortcircuit_witness :
    (run_council_pipeline false none [] []
        { model := "chair", response := "s", metrics := [] } false).events.getLast?
      = some Event.error ∧
    (run_council_pipeline false none [] []
        { model := "chair", response := "s", metrics := [] } false).stage2_called
      = false ∧
    (∀ d, StorageOp.update_pending_progress d
        ∈ (run_council_pipeline false none [] []
            { model := "chair", response := "s", metrics := [] } false).storage →
      d.stage1 ≠ some []) ∧
    run_full_council [] [] { model := "chair", response := "s", metrics := [] } =
      (([], [], ("error", "All models failed to respond. Please try again.")),
       false) :=
  C5_zero_stage1_shortcircuit false none [] []
    { model := "chair", response := "s", metrics := [] } false rfl

/-! ### Lemmas about the aggregate-ranking accumulator (for C7) -/

theorem appendPos_bound {b : Nat} {mp : List (String × List Nat)}
    {model : String} {pos : Nat} (hmp : PosBound b mp) (h1 : 1 ≤ pos)
    (h2 : pos ≤ b) : PosBound b (appendPos mp model pos) := by
  induction mp with
  | nil =>
      intro pair hpair p hp
      simp only [appendPos, List.mem_singleton] at hpair
      subst hpair
      simp only [List.mem_singleton] at hp
      subst hp
      exact ⟨h1, h2⟩
  | cons head rest ih =>
      obtain ⟨m, ps⟩ := head
      intro pair hpair p hp
      simp only [appendPos] at hpair
      by_cases hm : (m == model) = true
      · rw [if_pos hm] at hpair
        rcases List.mem_cons.mp hpair with hpair | hpair
        · subst hpair
          rcases List.mem_append.mp hp with hp | hp
          · exact hmp (m, ps) (List.mem_cons_self _ _) p hp
          · simp only [List.mem_singleton] at hp
            subst hp
            exact ⟨h1, h2⟩
        · exact hmp pair (List.mem_cons_of_mem _ hpair) p hp
      · rw [if_neg hm] at hpair
        rcases List.mem_cons.mp hpair with hpair | hpair
        · subst hpair
          exact hmp _ (List.mem_cons_self _ _) p hp
        · exact ih (fun q hq => hmp q (List.mem_cons_of_mem _ hq)) pair hpair p hp

theorem collectGo_bound {label_to_model : List (String × String)} {b : Nat} :
    ∀ (labels : List String) (pos : Nat) (mp : List (String × List Nat)),
      PosBound b mp → 1 ≤ pos → pos + labels.length ≤ b + 1 →
      PosBound b (collectGo label_to_model pos labels mp) := by
  intro labels
  induction labels with
  | nil => intro pos mp hmp _ _; simpa [collectGo] using hmp
  | cons label rest ih =>
      intro pos mp hmp hpos hlen
      simp only [List.length_cons] at hlen
      simp only [collectGo]
      cases hlook : label_to_model.lookup label with
      | none => exact ih (pos + 1) mp hmp (by omega) (by omega)
      | some model =>
          refine ih (pos + 1) _ ?_ (by omega) (by omega)
          exact appendPos_bound hmp hpos (by omega)

theorem modelPositions_fold_bound {label_to_model : List (String × String)}
    {b : Nat} :
    ∀ (l : List Stage2Result) (mp : List (String × List Nat)),
      (∀ r ∈ l, (parse_ranking_from_text r.ranking).length ≤ b) →
      PosBound b mp →
      PosBound b
        (l.foldl
          (fun mp r =>
            collectGo label_to_model 1 (parse_ranking_from_text r.ranking) mp)
          mp) := by
  intro l
  induction l with
  | nil => intro mp _ hmp; simpa using hmp
  | cons r rest ih =>
      intro mp hlen hmp
      simp only [List.foldl_cons]
      refine ih _ (fun q hq => hlen q (List.mem_cons_of_mem _ hq)) ?_
      refine collectGo_bound _ 1 mp hmp le_rfl ?_
      have := hlen r (List.mem_cons_self _ _)
      omega

theorem parsedLen_le_maxParsedLen {stage2_results : List Stage2Result}
    {r : Stage2Result} (h : r ∈ stage2_results) :
    (parse_ranking_from_text r.ranking).length ≤ maxParsedLen stage2_results := by
  induction stage2_results with
  | nil => cases h
  | cons head rest ih =>
      rcases List.mem_cons.mp h with h | h
      · subst h
        simp only [maxParsedLen, List.map_cons, List.foldr_cons]
        exact le_max_left _ _
      · calc (parse_ranking_from_text r.ranking).length
            ≤ maxParsedLen rest := ih h
          _ ≤ maxParsedLen (head :: rest) := by
              simp only [maxParsedLen, List.map_cons, List.foldr_cons]
              exact le_max_right _ _

theorem appendPos_range {label_to_model : List (String × String)}
    {mp : List (String × List Nat)} {model : String} {pos : Nat}
    (hmp : MapRange label_to_model mp)
    (hmodel : ∃ lab, label_to_model.lookup lab = some model) :
    MapRange label_to_model (appendPos mp model pos) := by
  induction mp with
  | nil =>
      intro pair hpair
      simp only [appendPos, List.mem_singleton] at hpair
      subst hpair
      exact hmodel
  | cons head rest ih =>
      obtain ⟨m, ps⟩ := head
      intro pair hpair
      simp only [appendPos] at hpair
      by_cases hm : (m == model) = true
      · rw [if_pos hm] at hpair
        rcases List.mem_cons.mp hpair with hpair | hpair
        · subst hpair
          exact hmp (m, ps) (List.mem_cons_self _ _)
        · exact hmp pair (List.mem_cons_of_mem _ hpair)
      · rw [if_neg hm] at hpair
        rcases List.mem_cons.mp hpair with hpair | hpair
        · subst hpair
          exact hmp _ (List.mem_cons_self _ _)
        · exact ih (fun q hq => hmp q (List.mem_cons_of_mem _ hq)) pair hpair

theorem collectGo_range {label_to_model : List (String × String)} :
    ∀ (labels : List String) (pos : Nat) (mp : List (String × List Nat)),
      MapRange label_to_model mp →
      MapRange label_to_model (collectGo label_to_model pos labels mp) := by
  intro labels
  induction labels with
  | nil => intro pos mp hmp; simpa [collectGo] using hmp
  | cons label rest ih =>
      intro pos mp hmp
      simp only [collectGo]
      cases hlook : label_to_model.lookup label with
      | none => exact ih (pos + 1) mp hmp
      | some model =>
          exact ih (pos + 1) _ (appendPos_range hmp ⟨label, hlook⟩)

theorem modelPositions_fold_range {label_to_model : List (String × String)} :
    ∀ (l : List Stage2Result) (mp : List (String × List Nat)),
      MapRange label_to_model mp →
      MapRange label_to_model
        (l.foldl
          (fun mp r =>
            collectGo label_to_model 1 (parse_ranking_from_text r.ranking) mp)
          mp) := by
  intro l
  induction l with
  | nil => intro mp hmp; simpa using hmp
  | cons r rest ih =>
      intro mp hmp
      simp only [List.foldl_cons]
      exact ih _ (collectGo_range _ 1 mp hmp)

/-! ### Claim theorems for C7 -/

/-- Claim C7 as stated is false: with the single anonymized response
`Response A` (so N = 1) and one critique whose fallback parse is
`[Response Z, Response A]`, the unknown label `Response Z` is dropped but
`Response A` is counted at position 2 — outside [1, N]. -/
theorem C7_position_outside_1_N :
    model_positions [⟨"m1", "Response Z is weak. Response A is strong."⟩]
        [("Response A", "model-a")]
      = [("model-a", [2])] ∧
    List.length [("Response A", "model-a")] = 1 ∧ ¬ (2 : Nat) ≤ 1 := by
  exact ⟨rfl, rfl, by omega⟩

/-- Claim C7, amended: every position counted toward a model average is an
integer in [1, L] where L bounds the parsed-ranking lengths (NOT in
[1, N]: unknown or repeated parsed labels can push a known label past N);
labels absent from the label→model map are silently dropped, so every
aggregated model is the image of some mapped label; and
`calculate_aggregate_rankings` returns entries sorted by ascending
average rank. -/
theorem C7_amended (stage2_results : List Stage2Result)
    (label_to_model : List (String × String)) :
    (∀ pair ∈ model_positions stage2_results label_to_model,
      ∀ p ∈ pair.2, 1 ≤ p ∧ p ≤ maxParsedLen stage2_results) ∧
    (∀ pair ∈ model_positions stage2_results label_to_model,
      ∃ lab, label_to_model.lookup lab = some pair.1) ∧
    List.Pairwise (fun a b => a.average_rank ≤ b.average_rank)
      (calculate_aggregate_rankings stage2_results label_to_model) := by
  refine ⟨?_, ?_, ?_⟩
  · exact modelPositions_fold_bound stage2_results []
      (fun r hr => parsedLen_le_maxParsedLen hr) (by intro pair h; cases h)
  · exact modelPositions_fold_range stage2_results [] (by intro pair h; cases h)
  · have h := @List.sorted_mergeSort AggregateEntry
      (fun a b : AggregateEntry => decide (a.average_rank ≤ b.average_rank))
      (fun a b c h1 h2 => by
        simp only [decide_eq_true_eq] at *
        exact le_trans h1 h2)
      (fun a b => by
        simp only [Bool.or_eq_true, decide_eq_true_eq]
        exact le_total _ _)
      ((model_positions stage2_results label_to_model).foldr
        (fun p acc =>
          if !p.2.isEmpty then
            { model := p.1,
              average_rank := round2 ((p.2.sum : Rat) / (p.2.length : Rat)),
              rankings_count := p.2.length } :: acc
          else acc) [])
    refine List.Pairwise.imp ?_ h
    intro a b hab
    simpa using hab

/-- Witness for C7_amended: instantiated at a concrete three-critique run,
with the bound and membership facts discharged on a concrete accumulator
entry. -/
theorem C7_amended_witness :
    (∀ p ∈ [1, 2, 1], 1 ≤ p ∧
      p ≤ maxParsedLen
        [⟨"m1", "FINAL RANKING:\n1. Response A\n2. Response B"⟩,
         ⟨"m2", "FINAL RANKING:\n1. Response B\n2. Response A"⟩,
         ⟨"m3", "FINAL RANKING:\n1. Response A\n2. Response B"⟩]) ∧
    ∃ lab,
      ([("Response A", "gpt"), ("Response B", "claude")].lookup lab)
        = some "gpt" := by
  have h := C7_amended
    [⟨"m1", "FINAL RANKING:\n1. Response A\n2. Response B"⟩,
     ⟨"m2", "FINAL RANKING:\n1. Response B\n2. Response A"⟩,
     ⟨"m3", "FINAL RANKING:\n1. Response A\n2. Response B"⟩]
    [("Response A", "gpt"), ("Response B", "claude")]
  refine ⟨?_, ?_⟩
  · intro p hp
    exact h.1 ("gpt", [1, 2, 1]) (by decide) p hp
  · exact h.2.1 ("gpt", [1, 2, 1]) (by decide)

/-! ### Claim theorems for C8 -/

/-- Claim C8 as stated is false: a marker whose `last_update` field is
missing but whose `started_at` timestamp is fresh is NOT stale — line 573
of storage.py falls back to `started_at`, it does not treat a missing
`last_update` as stale. -/
theorem C8_missing_last_update_not_stale :
    is_pending_stale 1000
      { last_update := .absent, started_at := .valid 1000 } = false := by
  simp only [is_pending_stale, effectiveTimestamp, PENDING_STALE_TIMEOUT_SECONDS]
  norm_num

/-- Claim C8, amended: the staleness check consults `last_update` with
fallback to `started_at` when `last_update` is missing or empty; it returns
true iff the effective field is absent in both places, unparseable, or
older than the threshold. In particular, when `last_update` itself is a
parseable timestamp t the result is exactly `now - t > threshold`, and the
default threshold is 600 s (10 minutes). -/
theorem C8_amended (now : Rat) (info : PendingInfo) (timeout : Rat) :
    (is_pending_stale now info timeout = true ↔
      effectiveTimestamp info = .absent ∨
        effectiveTimestamp info = .invalid ∨
        ∃ t, effectiveTimestamp info = .valid t ∧ now - t > timeout) ∧
    (∀ t, info.last_update = .valid t →
      (is_pending_stale now info timeout = true ↔ now - t > timeout)) ∧
    PENDING_STALE_TIMEOUT_SECONDS = 600 := by
  refine ⟨?_, ?_, rfl⟩
  · cases h : effectiveTimestamp info with
    | absent => simp [is_pending_stale, h]
    | invalid => simp [is_pending_stale, h]
    | valid t => simp [is_pending_stale, h]
  · intro t ht
    have h : effectiveTimestamp info = .valid t := by
      simp [effectiveTimestamp, ht]
    simp [is_pending_stale, h]

/-- Witness for C8_amended: a marker whose `last_update` parses to time 0,
checked at now = 1000 with threshold 600, is stale. -/
theorem C8_amended_witness :
    is_pending_stale 1000
        { last_update := .valid 0, started_at := .absent } 600 = true ↔
      (1000 : Rat) - 0 > 600 :=
  (C8_amended 1000 { last_update := .valid 0, started_at := .absent }
    600).2.1 0 rfl

/-! ### Round-trip lemmas for the deliberation model (for C9) -/

theorem orZeroRat_id (x : Rat) : orZeroRat x = x := by
  unfold orZeroRat
  split <;> simp_all

theorem orZeroInt_id (x : Int) : orZeroInt x = x := by
  unfold orZeroInt
  split <;> simp_all

theorem metrics_roundtrip {m : Metrics} (h : m.wellFormed = true) :
    Metrics.from_dict m.to_dict = m := by
  obtain ⟨c, tt, l, p⟩ := m
  simp only [Metrics.wellFormed, bne_iff_ne, ne_eq] at h
  cases p with
  | none =>
      simp [Metrics.to_dict, Metrics.from_dict, orZeroRat_id, orZeroInt_id]
  | some s =>
      have hs : ¬ s = "" := by
        intro e
        exact h (by rw [e])
      simp [Metrics.to_dict, Metrics.from_dict, orZeroRat_id, orZeroInt_id, hs]

theorem optionMetrics_roundtrip {mt : Option Metrics}
    (h : (match mt with
          | some m => m.wellFormed
          | none => true) = true) :
    (mt.map Metrics.to_dict).map Metrics.from_dict = mt := by
  cases mt with
  | none => rfl
  | some m => simp [metrics_roundtrip h]

theorem participantResponse_roundtrip {p : ParticipantResponse}
    (h : p.wellFormed = true) :
    ParticipantResponse.from_dict p.to_dict = p := by
  obtain ⟨pa, mo, co, mt, rd, pr⟩ := p
  simp only [ParticipantResponse.wellFormed, Bool.and_eq_true, bne_iff_ne,
    ne_eq] at h
  obtain ⟨⟨hmt, hrd⟩, hpr⟩ := h
  simp only [ParticipantResponse.to_dict, ParticipantResponse.from_dict,
    ParticipantResponse.mk.injEq, true_and]
  refine ⟨optionMetrics_roundtrip hmt, ?_, ?_⟩
  · cases rd with
    | none => rfl
    | some s =>
        have hs : ¬ s = "" := by
          intro e
          exact hrd (by rw [e])
        simp [hs]
  · cases pr with
    | none => rfl
    | some l =>
        have hl : ¬ l.isEmpty = true := by
          intro e
          exact hpr (by rw [List.isEmpty_iff.mp e])
        simp [hl]

theorem responses_roundtrip {l : List ParticipantResponse}
    (h : l.all ParticipantResponse.wellFormed = true) :
    (l.map ParticipantResponse.to_dict).map ParticipantResponse.from_dict
      = l := by
  induction l with
  | nil => rfl
  | cons p rest ih =>
      simp only [List.all_cons, Bool.and_eq_true] at h
      simp only [List.map_cons, List.cons.injEq]
      exact ⟨participantResponse_roundtrip h.1, ih h.2⟩

theorem emptyGuard_getD {α : Type} (l : List α) :
    (if l.isEmpty then (none : Option (List α)) else some l).getD [] = l := by
  cases l <;> simp

theorem round_roundtrip {r : Round} (h : r.wellFormed = true) :
    Round.from_dict r.to_dict = r := by
  obtain ⟨n, ty, resp, md, mt⟩ := r
  simp only [Round.wellFormed, Bool.and_eq_true] at h
  simp only [Round.to_dict, Round.from_dict, Round.mk.injEq, true_and]
  exact ⟨responses_roundtrip h.1, emptyGuard_getD md,
    optionMetrics_roundtrip h.2⟩

theorem synthesis_roundtrip {s : Synthesis} (h : s.wellFormed = true) :
    Synthesis.from_dict s.to_dict = s := by
  obtain ⟨mo, co, mt, rd⟩ := s
  simp only [Synthesis.wellFormed, Bool.and_eq_true, bne_iff_ne, ne_eq] at h
  simp only [Synthesis.to_dict, Synthesis.from_dict, Synthesis.mk.injEq,
    true_and]
  refine ⟨optionMetrics_roundtrip h.1, ?_⟩
  cases rd with
  | none => rfl
  | some t =>
      have ht : ¬ t = "" := by
        intro e
        exact h.2 (by rw [e])
      simp [ht]

theorem rounds_roundtrip {l : List Round}
    (h : l.all Round.wellFormed = true) :
    (l.map Round.to_dict).map Round.from_dict = l := by
  induction l with
  | nil => rfl
  | cons r rest ih =>
      simp only [List.all_cons, Bool.and_eq_true] at h
      simp only [List.map_cons, List.cons.injEq]
      exact ⟨round_roundtrip h.1, ih h.2⟩

theorem deliberationResult_roundtrip {d : DeliberationResult}
    (h : d.wellFormed = true) :
    DeliberationResult.from_dict d.to_dict = d := by
  obtain ⟨mo, ro, sy, pm, me⟩ := d
  simp only [DeliberationResult.wellFormed, Bool.and_eq_true] at h
  simp only [DeliberationResult.to_dict, DeliberationResult.from_dict,
    DeliberationResult.mk.injEq, true_and]
  refine ⟨rounds_roundtrip h.1, ?_, emptyGuard_getD pm, emptyGuard_getD me⟩
  cases sy with
  | none => rfl
  | some s => simp [synthesis_roundtrip h.2]

/-! ### Claim theorems for C9 -/

/-- Claim C9 as stated is false: a `Synthesis` whose `reasoning_details` is
the present-but-empty string does not survive `to_dict → from_dict` —
`to_dict` omits the falsy field (line 174) and `from_dict` restores `None`
(line 188). -/
theorem C9_roundtrip_not_identity :
    Synthesis.from_dict (Synthesis.to_dict
        { model := "m", content := "c", metrics := none,
          reasoning_details := some "" })
      ≠ { model := "m", content := "c", metrics := none,
          reasoning_details := some "" } := by
  decide

/-- Claim C9, amended: `to_dict → from_dict` is the identity on `Round`,
`Synthesis` and `DeliberationResult` for every value none of whose optional
fields is present-but-falsy (no `reasoning_details = some ""`, no
`parsed_ranking = some []`, no metrics `provider = some ""`, recursively).
-/
theorem C9_amended (r : Round) (s : Synthesis) (d : DeliberationResult)
    (hr : r.wellFormed = true) (hs : s.wellFormed = true)
    (hd : d.wellFormed = true) :
    Round.from_dict r.to_dict = r ∧
    Synthesis.from_dict s.to_dict = s ∧
    DeliberationResult.from_dict d.to_dict = d :=
  ⟨round_roundtrip hr, synthesis_roundtrip hs, deliberationResult_roundtrip hd⟩

/-- Witness for C9_amended at a concrete council-shaped result. -/
theorem C9_amended_witness :
    Round.from_dict (Round.to_dict
        { round_number := 1, round_type := "responses",
          responses :=
            [{ participant := "Response A", model := "gpt", content := "hi",
               metrics := some { cost := 1 / 100, total_tokens := 10,
                                 latency_ms := 5, provider := some "oai" },
               reasoning_details := none, parsed_ranking := none }],
          metadata := [("k", "v")], metrics := none })
      = { round_number := 1, round_type := "responses",
          responses :=
            [{ participant := "Response A", model := "gpt", content := "hi",
               metrics := some { cost := 1 / 100, total_tokens := 10,
                                 latency_ms := 5, provider := some "oai" },
               reasoning_details := none, parsed_ranking := none }],
          metadata := [("k", "v")], metrics := none } ∧
    Synthesis.from_dict (Synthesis.to_dict
        { model := "chair", content := "answer", metrics := none,
          reasoning_details := some "because" })
      = { model := "chair", content := "answer", metrics := none,
          reasoning_details := some "because" } ∧
    DeliberationResult.from_dict (DeliberationResult.to_dict
        { mode := "council", rounds := [],
          synthesis := some { model := "chair", content := "answer",
                              metrics := none,
                              reasoning_details := some "because" },
          participant_mapping := [("Response A", "gpt")],
          metrics := [("total_cost", 3 / 100)] })
      = { mode := "council", rounds := [],
          synthesis := some { model := "chair", content := "answer",
                              metrics := none,
                              reasoning_details := some "because" },
          participant_mapping := [("Response A", "gpt")],
          metrics := [("total_cost", 3 / 100)] } :=
  C9_amended _ _ _ (by decide) (by decide) (by decide)

/-! ### Claim theorem for C10 -/

/-- Claim C10: `remove_last_user_message` returns true exactly when the
stored conversation exists and its final message has role `user`; exactly
that final message is removed in the true case (the message list becomes
`dropLast`), and in every other case the stored conversation is unchanged. -/
theorem C10_remove_last_user_message (stored : Option Conversation) :
    ((remove_last_user_message stored).2 = true ↔
      ∃ c ms m, stored = some c ∧ c.messages = ms ++ [m] ∧
        m.role = "user") ∧
    (remove_last_user_message stored).1 =
      (if (remove_last_user_message stored).2 = true then
        stored.map (fun c => { c with messages := c.messages.dropLast })
      else stored) := by
  cases stored with
  | none =>
      refine ⟨?_, rfl⟩
      simp [remove_last_user_message]
  | some c =>
      obtain ⟨l⟩ := c
      rcases List.eq_nil_or_concat l with hl | ⟨ms, m, hl⟩
      · subst hl
        refine ⟨?_, rfl⟩
        simp [remove_last_user_message]
      · rw [List.concat_eq_append] at hl
        subst hl
        by_cases hrole : m.role = "user"
        · have hcompute :
              remove_last_user_message (some { messages := ms ++ [m] }) =
                (some { messages := ms }, true) := by
            simp [remove_last_user_message, List.getLast?_concat,
              List.dropLast_concat, hrole]
          rw [hcompute]
          constructor
          · constructor
            · intro _
              exact ⟨{ messages := ms ++ [m] }, ms, m, rfl, rfl, hrole⟩
            · intro _
              rfl
          · simp [List.dropLast_concat]
        · have hcompute :
              remove_last_user_message (some { messages := ms ++ [m] }) =
                (some { messages := ms ++ [m] }, false) := by
            simp [remove_last_user_message, List.getLast?_concat,
              List.dropLast_concat, hrole]
          rw [hcompute]
          constructor
          · constructor
            · intro hfalse
              cases hfalse
            · rintro ⟨c', ms', m', hc, hl', hrole'⟩
              have hc' : c' = { messages := ms ++ [m] } := by
                cases hc
                rfl
              subst hc'
              have hl'' : ms ++ [m] = ms' ++ [m'] := hl'
              have hm : some m = some m' := by
                calc some m = (ms ++ [m]).getLast? :=
                      (List.getLast?_concat ms).symm
                  _ = (ms' ++ [m']).getLast? := by rw [hl'']
                  _ = some m' := List.getLast?_concat ms'
              cases hm
              exact absurd hrole' hrole
          · simp

end LLMCouncil
